import Mathlib

/-!
Verification of the gsutil test-support base class
(`gslib/tests/testcase/base.py`) and the `gslib/addlhelp` help-topic
modules.  Character strings are modelled as lists of Unicode code points
(`List Nat`); effectful helpers are modelled as the trace of filesystem
calls they issue.
-/

set_option maxHeartbeats 1000000

/-- Code points of a Lean string literal, used to transcribe the Python
string literals of the source. -/
def asciiOf (s : String) : List Nat := s.toList.map Char.toNat

/-! ### `MakeRandomTestString` and `MakeTempName` (base.py lines 87-114) -/

/-- One lowercase hexadecimal digit character (`0`-`9`, `a`-`f`) for a value
`d < 16`, as produced by Python `%x` formatting. -/
def hexDigit (d : Nat) : Nat := if d < 10 then 48 + d else 87 + d

/-- Big-endian, zero-padded hexadecimal rendering of `r` to exactly `k`
digits: the model of Python `'%0kx' % r` for `r < 16^k`. -/
def hexN : Nat → Nat → List Nat
  | 0, _ => []
  | k + 1, r => hexN k (r / 16) ++ [hexDigit (r % 16)]

/-- `MakeRandomTestString` renders the draw `r` of `random.randrange(256**4)`
as `'%08x' % r`: eight lowercase hex characters. -/
def MakeRandomTestString (r : Nat) : List Nat := hexN 8 r

/-- `MAX_BUCKET_LENGTH = 63` (base.py line 37). -/
def MAX_BUCKET_LENGTH : Nat := 63

/-- Modelled from the spec: the per-character action of
`gslib.tests.util.MakeBucketNameValid`, whose source is not part of this
excerpt.  Per the spec and the docstring of `MakeTempName`, the coercion
replaces each underscore (code 95) with a hyphen (code 45) and converts
each (ASCII) uppercase letter to lowercase. -/
def bucketChar (c : Nat) : Nat :=
  if c = 95 then 45 else if 65 ≤ c ∧ c ≤ 90 then c + 32 else c

/-- Modelled from the spec: `gslib.tests.util.MakeBucketNameValid`, applied
character-wise (`name.replace('_', '-').lower()` in the upstream source the
spec describes). -/
def MakeBucketNameValid (name : List Nat) : List Nat := name.map bucketChar

/-- `GsUtilTestCase.MakeTempName` (base.py lines 87-114).  `methodName` is
`self.GetTestMethodName()`, `pfx` the `prefix` argument, and `r` the random
draw feeding `MakeRandomTestString`.  The stem is truncated to
`MAX_BUCKET_LENGTH - 9` characters before the `-`-separated random suffix
is appended; bucket-kind names are then coerced valid. -/
def MakeTempName (methodName kind pfx : List Nat) (r : Nat) : List Nat :=
  let name := pfx ++ asciiOf "gsutil-test-" ++ methodName ++ asciiOf "-" ++ kind
  let name2 := name.take (MAX_BUCKET_LENGTH - 9)
  let name3 := name2 ++ asciiOf "-" ++ MakeRandomTestString r
  if kind = asciiOf "bucket" then MakeBucketNameValid name3 else name3

/-- A code point is a lowercase hexadecimal digit character. -/
def isHexDigit (c : Nat) : Prop := (48 ≤ c ∧ c ≤ 57) ∨ (97 ≤ c ∧ c ≤ 102)

instance (c : Nat) : Decidable (isHexDigit c) := by
  unfold isHexDigit; infer_instance

/-- Numeric value of a hexadecimal digit character. -/
def hexVal (c : Nat) : Nat := if c ≤ 57 then c - 48 else c - 87

/-- Value encoded by a big-endian string of hexadecimal digit characters. -/
def hexDecode (l : List Nat) : Nat := l.foldl (fun a c => 16 * a + hexVal c) 0

theorem hexVal_hexDigit (d : Nat) (hd : d < 16) : hexVal (hexDigit d) = d := by
  unfold hexVal hexDigit
  rcases Nat.lt_or_ge d 10 with h | h
  · simp [h, Nat.not_lt.mpr, Nat.le_of_lt]
    omega
  · have : ¬ d < 10 := Nat.not_lt.mpr h
    simp [this]
    omega

theorem isHexDigit_hexDigit (d : Nat) (hd : d < 16) : isHexDigit (hexDigit d) := by
  unfold isHexDigit hexDigit
  rcases Nat.lt_or_ge d 10 with h | h
  · simp [h]; omega
  · have : ¬ d < 10 := Nat.not_lt.mpr h
    simp [this]; omega

theorem hexN_length (k r : Nat) : (hexN k r).length = k := by
  induction k generalizing r with
  | zero => rfl
  | succ k ih => simp [hexN, ih]

theorem hexN_mem_isHexDigit (k r : Nat) : ∀ c ∈ hexN k r, isHexDigit c := by
  induction k generalizing r with
  | zero => intro c hc; simp [hexN] at hc
  | succ k ih =>
    intro c hc
    simp only [hexN, List.mem_append, List.mem_singleton] at hc
    rcases hc with hc | hc
    · exact ih (r / 16) c hc
    · subst hc; exact isHexDigit_hexDigit _ (Nat.mod_lt _ (by omega))

theorem foldl_hex_append (l : List Nat) (d a : Nat) :
    (l ++ [d]).foldl (fun a c => 16 * a + hexVal c) a =
      16 * l.foldl (fun a c => 16 * a + hexVal c) a + hexVal d := by
  simp [List.foldl_append]

theorem hexDecode_hexN (k r : Nat) : hexDecode (hexN k r) = r % 16 ^ k := by
  induction k generalizing r with
  | zero => simp [hexN, hexDecode, Nat.mod_one]
  | succ k ih =>
    unfold hexDecode at ih ⊢
    rw [hexN, foldl_hex_append, ih, hexVal_hexDigit _ (Nat.mod_lt _ (by omega))]
    have h1 : 16 ^ (k + 1) = 16 * 16 ^ k := by ring
    rw [h1, Nat.mod_mul]
    omega

theorem bucketChar_fixes_hex (c : Nat) (h : isHexDigit c) : bucketChar c = c := by
  unfold isHexDigit at h
  unfold bucketChar
  split_ifs <;> omega

theorem map_bucketChar_fixed (l : List Nat) (h : ∀ c ∈ l, bucketChar c = c) :
    l.map bucketChar = l := by
  induction l with
  | nil => rfl
  | cons a l ih =>
    simp only [List.map_cons]
    rw [h a (List.mem_cons_self a l), ih (fun c hc => h c (List.mem_cons_of_mem a hc))]

theorem map_bucketChar_hexN (k r : Nat) : (hexN k r).map bucketChar = hexN k r :=
  map_bucketChar_fixed _ (fun c hc => bucketChar_fixes_hex c (hexN_mem_isHexDigit k r c hc))

/-- Every `MakeTempName` result is a truncated stem followed by a hyphen
and the eight hex digits of the random draw. -/
theorem MakeTempName_shape (methodName kind pfx : List Nat) (r : Nat) :
    MakeTempName methodName kind pfx r =
      (if kind = asciiOf "bucket"
        then ((pfx ++ asciiOf "gsutil-test-" ++ methodName ++ asciiOf "-" ++ kind).take
                (MAX_BUCKET_LENGTH - 9)).map bucketChar
        else (pfx ++ asciiOf "gsutil-test-" ++ methodName ++ asciiOf "-" ++ kind).take
                (MAX_BUCKET_LENGTH - 9)) ++ 45 :: hexN 8 r := by
  have hdash : asciiOf "-" = [45] := by decide
  have hsfx : asciiOf "-" ++ MakeRandomTestString r = 45 :: hexN 8 r := by
    rw [hdash]; rfl
  have h45 : bucketChar 45 = 45 := by decide
  unfold MakeTempName
  by_cases hk : kind = asciiOf "bucket"
  · rw [if_pos hk, if_pos hk]
    unfold MakeBucketNameValid
    rw [List.append_assoc, hsfx, List.map_append, List.map_cons, map_bucketChar_hexN, h45]
  · rw [if_neg hk, if_neg hk, List.append_assoc, hsfx]

/-- Claim C1: every name returned by `MakeTempName` has length at most 63
and ends in a hyphen followed by exactly 8 hexadecimal characters which
encode a value in `[0, 256^4)` (namely the random draw `r` itself); the
truncation to the length limit is applied to the prefix/method/kind stem
before the random suffix is appended, so the stem is at most
`MAX_BUCKET_LENGTH - 9 = 54` characters and the 8-character suffix is never
truncated away. -/
theorem MakeTempName_length_and_suffix (methodName kind pfx : List Nat) (r : Nat)
    (hr : r < 256 ^ 4) :
    (MakeTempName methodName kind pfx r).length ≤ MAX_BUCKET_LENGTH ∧
    ∃ stem, MakeTempName methodName kind pfx r = stem ++ 45 :: hexN 8 r ∧
      stem.length ≤ MAX_BUCKET_LENGTH - 9 ∧
      (hexN 8 r).length = 8 ∧
      (∀ c ∈ hexN 8 r, isHexDigit c) ∧
      hexDecode (hexN 8 r) = r ∧ hexDecode (hexN 8 r) < 256 ^ 4 := by
  have hdec : hexDecode (hexN 8 r) = r := by
    rw [hexDecode_hexN]
    exact Nat.mod_eq_of_lt (by simpa using hr)
  have hshape := MakeTempName_shape methodName kind pfx r
  set stem := (if kind = asciiOf "bucket"
    then ((pfx ++ asciiOf "gsutil-test-" ++ methodName ++ asciiOf "-" ++ kind).take
            (MAX_BUCKET_LENGTH - 9)).map bucketChar
    else (pfx ++ asciiOf "gsutil-test-" ++ methodName ++ asciiOf "-" ++ kind).take
            (MAX_BUCKET_LENGTH - 9)) with hstem
  have hstemlen : stem.length ≤ MAX_BUCKET_LENGTH - 9 := by
    rw [hstem]
    split_ifs
    · rw [List.length_map]; exact List.length_take_le _ _
    · exact List.length_take_le _ _
  refine ⟨?_, stem, hshape, hstemlen, hexN_length 8 r, hexN_mem_isHexDigit 8 r,
    hdec, by rw [hdec]; exact hr⟩
  rw [hshape]
  simp only [List.length_append, List.length_cons, hexN_length]
  unfold MAX_BUCKET_LENGTH at hstemlen ⊢
  omega

theorem MakeTempName_length_and_suffix_witness :
    1 < 256 ^ 4 ∧
    (MakeTempName (asciiOf "testFoo") (asciiOf "object") (asciiOf "p") 1).length ≤
      MAX_BUCKET_LENGTH :=
  ⟨by norm_num,
   (MakeTempName_length_and_suffix (asciiOf "testFoo") (asciiOf "object")
     (asciiOf "p") 1 (by norm_num)).1⟩

/-- Claim C8: every name returned by `MakeTempName` with kind `"bucket"`,
for any prefix, test-method name and random draw, contains no (ASCII)
uppercase letter and no underscore after the validity coercion. -/
theorem MakeTempName_bucket_valid (methodName pfx : List Nat) (r : Nat) :
    ∀ c ∈ MakeTempName methodName (asciiOf "bucket") pfx r,
      ¬(65 ≤ c ∧ c ≤ 90) ∧ c ≠ 95 := by
  intro c hc
  unfold MakeTempName at hc
  rw [if_pos rfl] at hc
  unfold MakeBucketNameValid at hc
  rcases List.mem_map.mp hc with ⟨a, _, rfl⟩
  unfold bucketChar
  split_ifs <;> omega

theorem MakeTempName_bucket_valid_witness :
    ¬(65 ≤ (MakeTempName (asciiOf "testFoo") (asciiOf "bucket") (asciiOf "P_") 0).headI ∧
       (MakeTempName (asciiOf "testFoo") (asciiOf "bucket") (asciiOf "P_") 0).headI ≤ 90) ∧
    (MakeTempName (asciiOf "testFoo") (asciiOf "bucket") (asciiOf "P_") 0).headI ≠ 95 :=
  MakeTempName_bucket_valid (asciiOf "testFoo") (asciiOf "P_") 0 _ (by decide)

/-! ### `CreateTempFile` (base.py lines 170-225) -/

/-- Modelled from the spec: `NA_ID` from `gslib.utils.posix_util`, whose
source is not part of this excerpt — the sentinel "not applicable" POSIX
user/group id, a designated marker distinguished from any legitimate id
(and in particular from a legitimate zero value). -/
def NA_ID : Int := -1

/-- Modelled from the spec: `NA_MODE` from `gslib.utils.posix_util`, whose
source is not part of this excerpt — the sentinel "not applicable" POSIX
permission mode, distinguished from any legitimate mode. -/
def NA_MODE : Int := -1

/-- Python `int(s, b)` for a string of decimal digit characters, as used on
the octal-digit mode strings the docstring of `CreateTempFile` requires. -/
def intOfDigitsBase (b : Nat) (s : List Nat) : Nat :=
  s.foldl (fun a c => b * a + (c - 48)) 0

/-- Python `int(mode)` as evaluated by the guard `int(mode) != NA_MODE`:
the default argument is the integer `NA_MODE` itself (modelled `none`), and
a caller-supplied mode is a digit string (modelled `some s`). -/
def pyIntOfMode : Option (List Nat) → Int
  | none => NA_MODE
  | some s => (intOfDigitsBase 10 s : Int)

/-- The trace of filesystem calls `CreateTempFile` issues on the created
file after opening it: the bytes written, and the optional `os.utime`,
`os.chown` and `os.chmod` calls with their arguments. -/
structure FileEffects where
  written : List Nat
  utimeCall : Option (Int × Int)
  chownCall : Option (Int × Int)
  chmodCall : Option Nat
  deriving Repr, DecidableEq

/-- `GsUtilTestCase.CreateTempFile` (base.py lines 170-225), as the trace
of calls made on the created file.  `contents = none` models the Python
default `None`, in which case the generated test string `genContents`
(`self.MakeTempName('contents')`, already encoded) is written;
`mode = none` models the default `NA_MODE`; `uid`/`gid` default to `NA_ID`.
The code calls `os.utime(fpath, (mtime, mtime))` when `mtime is not None`,
`os.chown(fpath, uid, int(gid))` when `uid != NA_ID or int(gid) != NA_ID`,
and `os.chmod(fpath, int(mode, 8))` when `int(mode) != NA_MODE`. -/
def CreateTempFile (contents : Option (List Nat)) (genContents : List Nat)
    (mtime : Option Int) (mode : Option (List Nat)) (uid gid : Int) : FileEffects :=
  { written := contents.getD genContents
    utimeCall := mtime.map (fun t => (t, t))
    chownCall := if uid ≠ NA_ID ∨ gid ≠ NA_ID then some (uid, gid) else none
    chmodCall :=
      if pyIntOfMode mode ≠ NA_MODE then
        match mode with
        | some s => some (intOfDigitsBase 8 s)
        | none => none
      else none }

/-- Access and modification time of the created file once the trace has
run: the `os.utime` call overrides the creation-time stamps
`(createdAtime, createdMtime)` the filesystem assigned. -/
def fileTimesAfter (eff : FileEffects) (createdAtime createdMtime : Int) : Int × Int :=
  match eff.utimeCall with
  | some at_mt => at_mt
  | none => (createdAtime, createdMtime)

/-- Claim C3: `CreateTempFile` changes ownership (calls `os.chown`) only
when `uid` or `gid` differs from the sentinel `NA_ID`, and changes the
permission mode (calls `os.chmod`) only when `mode` differs from the
sentinel `NA_MODE` default (`mode = none` models the sentinel); when `uid`,
`gid` and `mode` all equal their sentinels, neither ownership nor mode of
the created file is modified. -/
theorem CreateTempFile_sentinel_guards (contents : Option (List Nat))
    (genContents : List Nat) (mtime : Option Int) (mode : Option (List Nat))
    (uid gid : Int) :
    (uid = NA_ID → gid = NA_ID → mode = none →
      (CreateTempFile contents genContents mtime mode uid gid).chownCall = none ∧
      (CreateTempFile contents genContents mtime mode uid gid).chmodCall = none) ∧
    ((CreateTempFile contents genContents mtime mode uid gid).chownCall ≠ none →
      uid ≠ NA_ID ∨ gid ≠ NA_ID) ∧
    ((CreateTempFile contents genContents mtime mode uid gid).chmodCall ≠ none →
      mode ≠ none) := by
  refine ⟨fun hu hg hm => ?_, fun h => ?_, fun h => ?_⟩
  · subst hu; subst hg; subst hm
    constructor
    · simp [CreateTempFile]
    · simp [CreateTempFile, pyIntOfMode]
  · by_contra hc
    push_neg at hc
    apply h
    simp [CreateTempFile, hc.1, hc.2]
  · intro hm
    subst hm
    apply h
    simp [CreateTempFile, pyIntOfMode]

theorem CreateTempFile_sentinel_guards_witness :
    (CreateTempFile none [] none none NA_ID NA_ID).chownCall = none ∧
    (CreateTempFile none [] none none NA_ID NA_ID).chmodCall = none :=
  (CreateTempFile_sentinel_guards none [] none none NA_ID NA_ID).1 rfl rfl rfl

/-- Claim C4: when `CreateTempFile` is given an explicit `mtime`, both the
access time and the modification time of the created file afterwards equal
that `mtime`; when `mtime` is not supplied, no `os.utime` call is made and
the timestamps keep the values the filesystem assigned at creation. -/
theorem CreateTempFile_mtime (contents : Option (List Nat)) (genContents : List Nat)
    (mode : Option (List Nat)) (uid gid : Int) (t createdAtime createdMtime : Int) :
    fileTimesAfter (CreateTempFile contents genContents (some t) mode uid gid)
        createdAtime createdMtime = (t, t) ∧
    (CreateTempFile contents genContents none mode uid gid).utimeCall = none ∧
    fileTimesAfter (CreateTempFile contents genContents none mode uid gid)
        createdAtime createdMtime = (createdAtime, createdMtime) := by
  refine ⟨rfl, rfl, rfl⟩

/-! ### `CreateTempDir` (base.py lines 120-145) -/

/-- Python `'%d' % i` for a natural `i`: the decimal digit characters. -/
def decimalOf (i : Nat) : List Nat := asciiOf (toString i)

/-- `GsUtilTestCase.CreateTempDir` (base.py lines 120-145), as the list of
`(file name, contents)` pairs handed to `CreateTempFile`.  `test_files` is
either an integer count (`Sum.inl n`, the non-iterable case, for which the
code generates `n` names via `MakeTempName('file')`, modelled by `gen`) or
a caller-supplied list of names (`Sum.inr`).  Each file at enumeration
index `i` receives `contents` when supplied, and the ASCII encoding of
`'test %d' % i` otherwise. -/
def CreateTempDir (gen : Nat → List Nat) (test_files : Nat ⊕ List (List Nat))
    (contents : Option (List Nat)) : List (List Nat × List Nat) :=
  let names := match test_files with
    | Sum.inl n => (List.range n).map gen
    | Sum.inr l => l
  names.enum.map (fun p => (p.2, contents.getD (asciiOf "test " ++ decimalOf p.1)))

/-- Claim C2: `CreateTempDir` with `test_files = 3` and default contents
creates exactly 3 files whose contents are the ASCII encodings of
`"test 0"`, `"test 1"` and `"test 2"` in index order; with an explicit
`contents` value, every generated file receives that same contents. -/
theorem CreateTempDir_contents (gen : Nat → List Nat) :
    (CreateTempDir gen (Sum.inl 3) none).length = 3 ∧
    (CreateTempDir gen (Sum.inl 3) none).map Prod.snd =
      [asciiOf "test 0", asciiOf "test 1", asciiOf "test 2"] ∧
    ∀ (test_files : Nat ⊕ List (List Nat)) (c : List Nat)
      (f : List Nat × List Nat), f ∈ CreateTempDir gen test_files (some c) →
        f.2 = c := by
  refine ⟨rfl, ?_, ?_⟩
  · show [(gen 0, _), (gen 1, _), (gen 2, _)].map Prod.snd = _
    simp only [List.map_cons, List.map_nil]
    have h0 : asciiOf "test " ++ decimalOf 0 = asciiOf "test 0" := by decide
    have h1 : asciiOf "test " ++ decimalOf 1 = asciiOf "test 1" := by decide
    have h2 : asciiOf "test " ++ decimalOf 2 = asciiOf "test 2" := by decide
    rw [← h0, ← h1, ← h2]
    rfl
  · intro test_files c f hf
    unfold CreateTempDir at hf
    rcases List.mem_map.mp hf with ⟨p, _, rfl⟩
    rfl

theorem CreateTempDir_contents_witness :
    ((asciiOf "a", asciiOf "xyz") : List Nat × List Nat).2 = asciiOf "xyz" :=
  (CreateTempDir_contents (fun _ => [])).2.2 (Sum.inr [asciiOf "a"]) (asciiOf "xyz")
    (asciiOf "a", asciiOf "xyz") (by decide)

/-! ### `tearDown` (base.py lines 76-79) -/

/-- `shutil.rmtree(path, ignore_errors)` over a filesystem modelled as the
list of existing directory trees: removing an existing tree succeeds;
removing a missing one raises unless `ignore_errors` suppresses it. -/
def rmtree (fs : List String) (path : String) (ignore_errors : Bool) :
    Except String (List String) :=
  if path ∈ fs then Except.ok (fs.erase path)
  else if ignore_errors then Except.ok fs else Except.error path

/-- Total result of `rmtree` with errors ignored. -/
def rmtreeQuiet (fs : List String) (path : String) : List String :=
  if path ∈ fs then fs.erase path else fs

/-- The body of `tearDown`'s `while self.tempdirs:` loop over the already
reversed pop order: pop each directory and `rmtree` it with
`ignore_errors=True`; an escaping exception would carry the directories
still tracked at that point. -/
def tearDownLoop : List String → List String →
    Except (List String × String) (List String)
  | [], fs => Except.ok fs
  | d :: rest, fs =>
    match rmtree fs d true with
    | Except.ok fs2 => tearDownLoop rest fs2
    | Except.error e => Except.error (rest.reverse, e)

/-- `GsUtilTestCase.tearDown` (base.py lines 76-79): repeatedly pop the
last tracked directory and remove it, errors ignored.  Returns the final
`(self.tempdirs, filesystem)` state on normal termination. -/
def tearDown (tempdirs : List String) (fs : List String) :
    Except (List String × String) (List String × List String) :=
  (tearDownLoop tempdirs.reverse fs).map (fun fs2 => ([], fs2))

theorem rmtree_ignore_ok (fs : List String) (d : String) :
    rmtree fs d true = Except.ok (rmtreeQuiet fs d) := by
  unfold rmtree rmtreeQuiet
  by_cases h : d ∈ fs
  · rw [if_pos h, if_pos h]
  · rw [if_neg h, if_neg h, if_pos rfl]

theorem tearDownLoop_ok (l fs : List String) :
    tearDownLoop l fs = Except.ok (l.foldl rmtreeQuiet fs) := by
  induction l generalizing fs with
  | nil => rfl
  | cons d rest ih =>
    rw [tearDownLoop, rmtree_ignore_ok]
    exact ih (rmtreeQuiet fs d)

/-- On every input, `tearDown` terminates normally with an empty tracked
list, having attempted each directory in pop order. -/
theorem tearDown_ok (tempdirs fs : List String) :
    tearDown tempdirs fs =
      Except.ok ([], tempdirs.reverse.foldl rmtreeQuiet fs) := by
  unfold tearDown
  rw [tearDownLoop_ok]
  rfl

/-- Claim C6: `tearDown` never raises: for every tracked-directory list and
filesystem state — including directories that no longer exist, whose
removal by a non-suppressing `rmtree` would fail — every removal error is
suppressed and `tearDown` returns normally after attempting to remove every
tracked directory (in pop order, last first). -/
theorem tearDown_never_raises (tempdirs fs : List String) :
    tearDown tempdirs fs =
      Except.ok ([], tempdirs.reverse.foldl rmtreeQuiet fs) ∧
    ∀ d, d ∉ fs → rmtree fs d false = Except.error d ∧
      rmtree fs d true = Except.ok fs := by
  constructor
  · exact tearDown_ok tempdirs fs
  · intro d hd
    constructor
    · unfold rmtree
      rw [if_neg hd, if_neg Bool.false_ne_true]
    · rw [rmtree_ignore_ok]
      unfold rmtreeQuiet
      rw [if_neg hd]

theorem tearDown_never_raises_witness :
    tearDown ["t1", "t2"] ["t2"] = Except.ok ([], []) ∧
    rmtree [] "gone" false = Except.error "gone" :=
  ⟨by rw [(tearDown_never_raises ["t1", "t2"] ["t2"]).1]; rfl,
   ((tearDown_never_raises ["t1", "t2"] []).2 "gone" (by decide)).1⟩

/-- Claim C5: `tearDown` is idempotent: a successful call leaves the
tracked-directory list empty, and a second call on that resulting state
operates on the empty list, removes nothing further, and leaves the state
unchanged. -/
theorem tearDown_idempotent (tempdirs fs l1 fs1 : List String)
    (h : tearDown tempdirs fs = Except.ok (l1, fs1)) :
    l1 = [] ∧ tearDown l1 fs1 = Except.ok ([], fs1) := by
  have hok := tearDown_ok tempdirs fs
  rw [hok] at h
  have h1 : l1 = [] := congrArg Prod.fst (Except.ok.inj h).symm
  refine ⟨h1, ?_⟩
  rw [h1]
  rfl

theorem tearDown_idempotent_witness :
    ([] : List String) = [] ∧
      tearDown [] ["keep"] = Except.ok ([], ["keep"]) :=
  tearDown_idempotent ["a"] ["a", "keep"] [] ["keep"] rfl

/-! ### `assertRegexpMatchesWithFlags` (base.py lines 227-248) -/

/-- CPython `re.IGNORECASE` (value 2). -/
def IGNORECASE : Nat := 2

/-- Case folding applied when the `IGNORECASE` bit is set in the compile
flags: ASCII uppercase letters are lowered, other characters unchanged. -/
def foldCase (flags : Nat) (c : Nat) : Nat :=
  if flags.testBit 1 = true ∧ 65 ≤ c ∧ c ≤ 90 then c + 32 else c

/-- The `pattern` argument: either a plain string or an already-compiled
pattern carrying its own flags. -/
inductive RePattern where
  | raw (p : List Nat)
  | compiled (p : List Nat) (flags : Nat)

/-- The `re.compile` call of the source: a string pattern is compiled with
the given flags, a pre-compiled one is recompiled from its `.pattern` with
its `.flags` merged in by bitwise or. -/
def compiledPattern : RePattern → Nat → List Nat × Nat
  | RePattern.raw p, flags => (p, flags)
  | RePattern.compiled p f, flags => (p, f ||| flags)

/-- Modelled from the spec: `pattern.search(text)` from Python's `re`
library, for the metacharacter-free (literal) patterns exercised here —
true exactly when the pattern occurs anywhere in the text, up to case
folding when `IGNORECASE` is set. -/
def reSearch (p : List Nat) (flags : Nat) (t : List Nat) : Bool :=
  decide (p.map (foldCase flags) <:+: t.map (foldCase flags))

/-- Python `repr` of the (ASCII, quote-free) strings involved: surrounding
single quotes (code 39), as produced by the `%r` conversions. -/
def pyReprChars (s : List Nat) : List Nat := 39 :: s ++ [39]

/-- The default failure message `'Regex didn\x27t match'`. -/
def defaultFailMsg : List Nat := asciiOf "Regex didn" ++ 39 :: asciiOf "t match"

/-- `GsUtilTestCase.assertRegexpMatchesWithFlags` (base.py lines 227-248):
compile the pattern with the merged flags, search the text, and on failure
raise `self.failureException` with `'%s: %r not found in %r' %
(failure_msg, pattern.pattern, text)`. -/
def assertRegexpMatchesWithFlags (text : List Nat) (pattern : RePattern)
    (msg : Option (List Nat)) (flags : Nat) : Except (List Nat) Unit :=
  if reSearch (compiledPattern pattern flags).1 (compiledPattern pattern flags).2 text
  then Except.ok ()
  else Except.error (msg.getD defaultFailMsg ++ asciiOf ": " ++
    pyReprChars (compiledPattern pattern flags).1 ++ asciiOf " not found in " ++
    pyReprChars text)

theorem middle_segment (a b c : List Nat) : b <:+: a ++ b ++ c := ⟨a, c, rfl⟩

/-- Claim C7: `assertRegexpMatchesWithFlags` returns silently exactly when
the pattern, compiled with the given flags (merged by bitwise or with a
pre-compiled pattern's own flags), is found anywhere in the text; otherwise
it raises the test failure exception with a message containing both the
pattern and the text.  In particular the call on text `"ABC"` with pattern
`"abc"` and `IGNORECASE` succeeds, and the call on `"ABC"` with `"xyz"`
fails with a message containing both `"xyz"` and `"ABC"`. -/
theorem assertRegexpMatchesWithFlags_spec :
    (∀ (text : List Nat) (pattern : RePattern) (msg : Option (List Nat)) (flags : Nat),
      assertRegexpMatchesWithFlags text pattern msg flags = Except.ok () ↔
        reSearch (compiledPattern pattern flags).1 (compiledPattern pattern flags).2
          text = true) ∧
    (∀ (text : List Nat) (pattern : RePattern) (msg : Option (List Nat))
      (flags : Nat) (m : List Nat),
      assertRegexpMatchesWithFlags text pattern msg flags = Except.error m →
        (compiledPattern pattern flags).1 <:+: m ∧ text <:+: m) ∧
    assertRegexpMatchesWithFlags (asciiOf "ABC") (RePattern.raw (asciiOf "abc"))
      none IGNORECASE = Except.ok () ∧
    ∃ m, assertRegexpMatchesWithFlags (asciiOf "ABC") (RePattern.raw (asciiOf "xyz"))
        none 0 = Except.error m ∧ asciiOf "xyz" <:+: m ∧ asciiOf "ABC" <:+: m := by
  have herr : ∀ (text : List Nat) (pattern : RePattern) (msg : Option (List Nat))
      (flags : Nat) (m : List Nat),
      assertRegexpMatchesWithFlags text pattern msg flags = Except.error m →
        (compiledPattern pattern flags).1 <:+: m ∧ text <:+: m := by
    intro text pattern msg flags m h
    unfold assertRegexpMatchesWithFlags at h
    by_cases hs : reSearch (compiledPattern pattern flags).1
        (compiledPattern pattern flags).2 text = true
    · rw [if_pos hs] at h
      exact absurd h (by simp)
    · rw [if_neg hs] at h
      have hm := (Except.error.inj h).symm
      subst hm
      constructor
      · refine ⟨msg.getD defaultFailMsg ++ asciiOf ": " ++ [39],
          [39] ++ asciiOf " not found in " ++ pyReprChars text, ?_⟩
        simp [pyReprChars, List.append_assoc]
      · refine ⟨msg.getD defaultFailMsg ++ asciiOf ": " ++
          pyReprChars (compiledPattern pattern flags).1 ++
          asciiOf " not found in " ++ [39], [39], ?_⟩
        simp [pyReprChars, List.append_assoc]
  refine ⟨?_, herr, ?_, ?_⟩
  · intro text pattern msg flags
    unfold assertRegexpMatchesWithFlags
    by_cases hs : reSearch (compiledPattern pattern flags).1
        (compiledPattern pattern flags).2 text = true
    · rw [if_pos hs]
      simp [hs]
    · rw [if_neg hs]
      simp [hs]
  · rfl
  · refine ⟨defaultFailMsg ++ asciiOf ": " ++ pyReprChars (asciiOf "xyz") ++
      asciiOf " not found in " ++ pyReprChars (asciiOf "ABC"), rfl, ?_, ?_⟩
    · exact (herr (asciiOf "ABC") (RePattern.raw (asciiOf "xyz")) none 0 _ rfl).1
    · exact (herr (asciiOf "ABC") (RePattern.raw (asciiOf "xyz")) none 0 _ rfl).2

theorem assertRegexpMatchesWithFlags_spec_witness :
    asciiOf "xyz" <:+:
      (defaultFailMsg ++ asciiOf ": " ++ pyReprChars (asciiOf "xyz") ++
        asciiOf " not found in " ++ pyReprChars (asciiOf "ABC")) ∧
    asciiOf "ABC" <:+:
      (defaultFailMsg ++ asciiOf ": " ++ pyReprChars (asciiOf "xyz") ++
        asciiOf " not found in " ++ pyReprChars (asciiOf "ABC")) :=
  assertRegexpMatchesWithFlags_spec.2.1 (asciiOf "ABC")
    (RePattern.raw (asciiOf "xyz")) none 0
    (defaultFailMsg ++ asciiOf ": " ++ pyReprChars (asciiOf "xyz") ++
      asciiOf " not found in " ++ pyReprChars (asciiOf "ABC")) rfl

/-! ### Help-topic registration records (`gslib/addlhelp/*.py`) -/

/-- `HelpProvider.HelpSpec`, as populated by each help-topic module: the
canonical topic name, its aliases, the provider type, the one-line summary,
the reference to the detailed-text resource, and the per-subcommand help
table (empty for additional-help topics). -/
structure HelpSpec where
  help_name : String
  help_name_aliases : List String
  help_type : String
  help_one_line_summary : String
  help_text : String
  subcommand_help_text : List (String × String)
  deriving Repr, DecidableEq

/-- `CommandOptions.help_spec` of `gslib/addlhelp/apis.py` (lines 30-37). -/
def apis_help_spec : HelpSpec :=
  { help_name := "apis"
    help_name_aliases := ["XML", "JSON", "api", "force_api", "prefer_api"]
    help_type := "additional_help"
    help_one_line_summary := "Cloud Storage APIs"
    help_text := "detailed_help/apis.md"
    subcommand_help_text := [] }

/-- `CommandOptions.help_spec` of `gslib/addlhelp/crc32c.py` (lines 29-36). -/
def crc32c_help_spec : HelpSpec :=
  { help_name := "crc32c"
    help_name_aliases := ["crc32", "crc", "crcmod"]
    help_type := "additional_help"
    help_one_line_summary := "CRC32C and Installing crcmod"
    help_text := "detailed_help/crc32c.md"
    subcommand_help_text := [] }

/-- `CommandOptions.help_spec` of `gslib/addlhelp/encoding.py` (lines 29-44). -/
def encoding_help_spec : HelpSpec :=
  { help_name := "encoding"
    help_name_aliases :=
      ["encodings", "utf8", "utf-8", "latin1", "unicode", "interoperability"]
    help_type := "additional_help"
    help_one_line_summary := "Filename encoding and interoperability problems"
    help_text := "detailed_help/encoding.md"
    subcommand_help_text := [] }

/-- `CommandOptions.help_spec` of `gslib/addlhelp/projects.py` (lines 29-44). -/
def projects_help_spec : HelpSpec :=
  { help_name := "projects"
    help_name_aliases :=
      ["apis console", "cloud console", "console", "dev console", "project",
       "proj", "project-id"]
    help_type := "additional_help"
    help_one_line_summary := "Working With Projects"
    help_text := "detailed_help.md"
    subcommand_help_text := [] }

/-- `CommandOptions.help_spec` of `gslib/addlhelp/security.py` (lines 28-45). -/
def security_help_spec : HelpSpec :=
  { help_name := "security"
    help_name_aliases :=
      ["hmac", "https", "oauth", "protection", "privacy", "proxies", "proxy,",
       "signing", "telemetry", "tls"]
    help_type := "additional_help"
    help_one_line_summary := "Security and Privacy Considerations"
    help_text := "detailed_help/security.md"
    subcommand_help_text := [] }

/-- `CommandOptions.help_spec` of `gslib/addlhelp/wildcards.py` (lines 28-40). -/
def wildcards_help_spec : HelpSpec :=
  { help_name := "wildcards"
    help_name_aliases := ["wildcard", "*", "**", "?"]
    help_type := "additional_help"
    help_one_line_summary := "Wildcard Names"
    help_text := "detailed_help/wildcards.md"
    subcommand_help_text := [] }

/-- The one help-specification record each of the six visible help-topic
modules constructs, in module order. -/
def allHelpSpecs : List HelpSpec :=
  [apis_help_spec, crc32c_help_spec, encoding_help_spec, projects_help_spec,
   security_help_spec, wildcards_help_spec]

/-- Claim C9: each of the six visible help-topic modules constructs exactly
one help-specification record binding a canonical topic name, a list of
aliases, a one-line summary and a reference to a detailed-text resource,
and the six canonical names (`apis`, `crc32c`, `encoding`, `projects`,
`security`, `wildcards`) are pairwise distinct. -/
theorem allHelpSpecs_registry :
    allHelpSpecs.length = 6 ∧
    allHelpSpecs.map HelpSpec.help_name =
      ["apis", "crc32c", "encoding", "projects", "security", "wildcards"] ∧
    (allHelpSpecs.map HelpSpec.help_name).Nodup ∧
    allHelpSpecs.map HelpSpec.help_type = List.replicate 6 "additional_help" ∧
    allHelpSpecs.map HelpSpec.help_text =
      ["detailed_help/apis.md", "detailed_help/crc32c.md",
       "detailed_help/encoding.md", "detailed_help.md",
       "detailed_help/security.md", "detailed_help/wildcards.md"] ∧
    allHelpSpecs.map HelpSpec.help_one_line_summary =
      ["Cloud Storage APIs", "CRC32C and Installing crcmod",
       "Filename encoding and interoperability problems",
       "Working With Projects", "Security and Privacy Considerations",
       "Wildcard Names"] :=
  ⟨rfl, rfl, by decide, rfl, rfl, rfl⟩

/-! ### `NotParallelizable` and `RequiresIsolation` (base.py lines 41-56) -/

/-- A Python function object: its input-output behaviour plus its
attribute dictionary (only the boolean annotation attributes the
decorators touch are modelled; lookup finds the most recent binding). -/
structure PyFunc (α β : Type) where
  call : α → β
  attrs : List (String × Bool)

/-- The `NotParallelizable` decorator (base.py lines 41-47): wraps `func`
in `ParallelAnnotatedFunc`, which forwards every call to `func`, and sets
`is_parallelizable = False` on the wrapper (whose `functools.wraps` has
copied `func`'s attribute dictionary). -/
def NotParallelizable {α β : Type} (func : PyFunc α β) : PyFunc α β :=
  { call := fun a => func.call a
    attrs := ("is_parallelizable", false) :: func.attrs }

/-- The `RequiresIsolation` decorator (base.py lines 50-56): wraps `func`
in `RequiresIsolationFunc`, which forwards every call to `func`, and sets
`requires_isolation = True` on the wrapper. -/
def RequiresIsolation {α β : Type} (func : PyFunc α β) : PyFunc α β :=
  { call := fun a => func.call a
    attrs := ("requires_isolation", true) :: func.attrs }

/-- Claim C10: the wrapped functions returned by `NotParallelizable` and
`RequiresIsolation` return exactly what the wrapped function returns on
every argument; the decorators only attach the annotation attributes
`is_parallelizable = False`, respectively `requires_isolation = True`. -/
theorem decorators_preserve_behaviour {α β : Type} (func : PyFunc α β) (a : α) :
    (NotParallelizable func).call a = func.call a ∧
    (RequiresIsolation func).call a = func.call a ∧
    (NotParallelizable func).attrs.lookup "is_parallelizable" = some false ∧
    (RequiresIsolation func).attrs.lookup "requires_isolation" = some true :=
  ⟨rfl, rfl, rfl, rfl⟩
